import Mathlib

/-!
Verification of the `GalaxyMap` star-map widget
(`src/components/World/GalaxyMap.tsx`).

The component keeps a ship position in percent coordinates, clamps it to the
map boundaries, detects proximity to a static list of points of interest and
fires a callback when a drag ends near one.  JavaScript numbers are embedded
as rationals (`ℚ`): every operation the claims touch is exact field
arithmetic and comparison, so `ℚ` is a faithful carrier.
-/

/-- The shape of a point of interest (`planet | station | nebula | asteroid`). -/
inductive PointType where
  | planet
  | station
  | nebula
  | asteroid
  deriving Repr, DecidableEq

/-- `MapPointData` from the source: one point of interest on the map. -/
structure MapPointData where
  id : String
  x : ℚ
  y : ℚ
  name : String
  type : PointType
  description : String
  image : Option String
  deriving Repr, DecidableEq

/-- Entry `terra-nova` of `GALAXY_POINTS`. -/
def terraNovaPoint : MapPointData :=
  { id := "terra-nova", x := 20, y := 30, name := "Terra Nova",
    type := PointType.planet,
    description := "Um planeta verdejante cheio de vida",
    image := some "https://images.pexels.com/photos/87651/earth-blue-planet-globe-planet-87651.jpeg" }

/-- Entry `estacao-omega` of `GALAXY_POINTS`. -/
def estacaoOmegaPoint : MapPointData :=
  { id := "estacao-omega", x := 60, y := 20, name := "Estação Omega",
    type := PointType.station,
    description := "Uma estação espacial avançada",
    image := some "https://images.pexels.com/photos/586063/pexels-photo-586063.jpeg" }

/-- Entry `nebulosa-crimson` of `GALAXY_POINTS`. -/
def nebulosaCrimsonPoint : MapPointData :=
  { id := "nebulosa-crimson", x := 80, y := 70, name := "Nebulosa Crimson",
    type := PointType.nebula,
    description := "Uma nebulosa misteriosa de cor vermelha",
    image := some "https://images.pexels.com/photos/1169754/pexels-photo-1169754.jpeg" }

/-- Entry `mundo-gelado` of `GALAXY_POINTS`. -/
def mundoGeladoPoint : MapPointData :=
  { id := "mundo-gelado", x := 15, y := 75, name := "Mundo Gelado",
    type := PointType.planet,
    description := "Um planeta coberto de gelo eterno",
    image := some "https://images.pexels.com/photos/1169754/pexels-photo-1169754.jpeg" }

/-- Entry `planeta-limite` of `GALAXY_POINTS`. -/
def planetaLimitePoint : MapPointData :=
  { id := "planeta-limite", x := 85, y := 25, name := "Planeta Limite",
    type := PointType.planet,
    description := "O último planeta conhecido na galáxia",
    image := some "https://images.pexels.com/photos/87651/earth-blue-planet-globe-planet-87651.jpeg" }

/-- Entry `estacao-borda` of `GALAXY_POINTS`. -/
def estacaoBordaPoint : MapPointData :=
  { id := "estacao-borda", x := 40, y := 85, name := "Estação da Borda",
    type := PointType.station,
    description := "Uma estação na fronteira do espaço conhecido",
    image := some "https://images.pexels.com/photos/586063/pexels-photo-586063.jpeg" }

/-- Entry `campo-asteroides` of `GALAXY_POINTS`. -/
def campoAsteroidesPoint : MapPointData :=
  { id := "campo-asteroides", x := 70, y := 50, name := "Campo de Asteroides",
    type := PointType.asteroid,
    description := "Uma região perigosa cheia de asteroides",
    image := some "https://images.pexels.com/photos/1169754/pexels-photo-1169754.jpeg" }

/-- The static list of points of interest (`GALAXY_POINTS` in the source). -/
def GALAXY_POINTS : List MapPointData :=
  [terraNovaPoint, estacaoOmegaPoint, nebulosaCrimsonPoint, mundoGeladoPoint,
   planetaLimitePoint, estacaoBordaPoint, campoAsteroidesPoint]

/-- The `margin` constant of `checkCollisionWithBoundaries`. -/
def margin : ℚ := 5

/-- Result of `checkCollisionWithBoundaries`: the returned `{x, y}` object plus
the local `collided` flag that decides the sound side effect. -/
structure CollisionResult where
  x : ℚ
  y : ℚ
  collided : Bool
  deriving Repr, DecidableEq

/-- The per-axis clamp of `checkCollisionWithBoundaries`: the source's two
axis blocks (computing `newX` and `newY`) are identical in form, so both are
this function. -/
def clampAxis (v : ℚ) : ℚ :=
  if v < margin then margin
  else if v > 100 - margin then 100 - margin
  else v

/-- Whether the per-axis block of `checkCollisionWithBoundaries` sets the
`collided` flag for coordinate `v` (the same two branch conditions that
rewrite the coordinate). -/
def axisCollided (v : ℚ) : Bool :=
  if v < margin then true
  else if v > 100 - margin then true
  else false

/-- `checkCollisionWithBoundaries` from the source: clamp each coordinate to
`[margin, 100 - margin]`, recording whether any branch fired. -/
def checkCollisionWithBoundaries (x y : ℚ) : CollisionResult :=
  { x := clampAxis x, y := clampAxis y,
    collided := axisCollided x || axisCollided y }

lemma clampAxis_eq (v : ℚ) : clampAxis v = min (max v 5) 95 := by
  unfold clampAxis margin
  split_ifs with h1 h2
  · rw [max_eq_right h1.le, min_eq_left (by norm_num : (5:ℚ) ≤ 95)]
  · have h5 : (5:ℚ) ≤ v := not_lt.mp h1
    have h95 : (95:ℚ) ≤ v := by linarith [h2]
    rw [max_eq_left h5, min_eq_right h95]
    norm_num
  · have h5 : (5:ℚ) ≤ v := not_lt.mp h1
    have h95 : v ≤ 95 := by linarith [not_lt.mp h2]
    rw [max_eq_left h5, min_eq_left h95]

lemma check_x_eq (x y : ℚ) :
    (checkCollisionWithBoundaries x y).x = min (max x 5) 95 := by
  simpa [checkCollisionWithBoundaries] using clampAxis_eq x

lemma check_y_eq (x y : ℚ) :
    (checkCollisionWithBoundaries x y).y = min (max y 5) 95 := by
  simpa [checkCollisionWithBoundaries] using clampAxis_eq y

lemma axisCollided_iff (v : ℚ) : axisCollided v = true ↔ (v < 5 ∨ v > 95) := by
  unfold axisCollided margin
  split_ifs with h1 h2
  · simp [h1]
  · have : v > 95 := by linarith [h2]
    simp [this]
  · have h5 : ¬ v < 5 := h1
    have h95 : ¬ v > 95 := by
      intro hgt
      exact h2 (by linarith)
    simp [h5, h95]

lemma axisCollided_iff_ne (v : ℚ) : axisCollided v = true ↔ clampAxis v ≠ v := by
  rw [axisCollided_iff, clampAxis_eq]
  constructor
  · rintro (h | h)
    · rw [max_eq_right h.le, min_eq_left (by norm_num : (5:ℚ) ≤ 95)]
      exact fun hv => absurd (hv ▸ h) (lt_irrefl v)
    · rw [max_eq_left (by linarith : (5:ℚ) ≤ v), min_eq_right h.le]
      exact fun hv => absurd (hv ▸ h) (lt_irrefl v)
  · intro hne
    by_contra hout
    push_neg at hout
    obtain ⟨hlo, hhi⟩ := hout
    exact hne (by rw [max_eq_left hlo, min_eq_left hhi])

lemma check_collided_iff (x y : ℚ) :
    (checkCollisionWithBoundaries x y).collided = true ↔
      (x < 5 ∨ x > 95 ∨ y < 5 ∨ y > 95) := by
  simp only [checkCollisionWithBoundaries, Bool.or_eq_true, axisCollided_iff]
  tauto

lemma check_collided_iff_ne (x y : ℚ) :
    (checkCollisionWithBoundaries x y).collided = true ↔
      ((checkCollisionWithBoundaries x y).x, (checkCollisionWithBoundaries x y).y) ≠ (x, y) := by
  simp only [checkCollisionWithBoundaries, Bool.or_eq_true, axisCollided_iff_ne,
    Prod.mk.injEq, ne_eq, not_and]
  constructor
  · rintro (h | h) hx
    · exact absurd hx h
    · intro hy
      exact h hy
  · intro h
    by_cases hx : clampAxis x = x
    · right
      intro hy
      exact (h hx) hy
    · exact Or.inl hx

/-- C1 helper: the clamped result always lies inside the margins. -/
lemma check_pos_bounds (x y : ℚ) :
    5 ≤ (checkCollisionWithBoundaries x y).x ∧ (checkCollisionWithBoundaries x y).x ≤ 95 ∧
    5 ≤ (checkCollisionWithBoundaries x y).y ∧ (checkCollisionWithBoundaries x y).y ≤ 95 := by
  rw [check_x_eq, check_y_eq]
  refine ⟨le_min (le_max_right x 5) (by norm_num), min_le_right _ _,
    le_min (le_max_right y 5) (by norm_num), min_le_right _ _⟩

/-- C1: `checkCollisionWithBoundaries` returns the input clamped
component-wise into `[5, 95]`, i.e. `(min (max x 5) 95, min (max y 5) 95)`. -/
theorem checkCollisionWithBoundaries_clamps (x y : ℚ) :
    (checkCollisionWithBoundaries x y).x = min (max x 5) 95 ∧
    (checkCollisionWithBoundaries x y).y = min (max y 5) 95 :=
  ⟨check_x_eq x y, check_y_eq x y⟩

/-- Squared Euclidean distance, the quantity under the `Math.sqrt` call of
`isNearPoint`. -/
def sqDist (sx sy px py : ℚ) : ℚ :=
  (sx - px) * (sx - px) + (sy - py) * (sy - py)

/-- `isNearPoint` from the source: the ship is near a point when the
Euclidean distance is below 8.  `Math.sqrt d < 8` with `d ≥ 0` is equivalent
to `d < 64`, so the embedding compares the squared distance with 64 to stay
inside decidable rational arithmetic (`isNearPoint_iff_sqrt` below proves the
equivalence with the square-root form over `ℝ`). -/
def isNearPoint (ship : ℚ × ℚ) (pointData : MapPointData) : Bool :=
  decide (sqDist ship.1 ship.2 pointData.x pointData.y < 64)

/-- The rational comparison used by `isNearPoint` agrees with the source's
`Math.sqrt(dx² + dy²) < 8` read over the real numbers. -/
theorem isNearPoint_iff_sqrt (ship : ℚ × ℚ) (p : MapPointData) :
    isNearPoint ship p = true ↔
      Real.sqrt (((ship.1 : ℝ) - (p.x : ℝ)) ^ 2 + ((ship.2 : ℝ) - (p.y : ℝ)) ^ 2) < 8 := by
  rw [isNearPoint, decide_eq_true_iff,
    Real.sqrt_lt' (by norm_num : (0:ℝ) < 8)]
  rw [show ((8:ℝ) ^ 2) = 64 by norm_num]
  rw [show (((ship.1 : ℝ) - (p.x : ℝ)) ^ 2 + ((ship.2 : ℝ) - (p.y : ℝ)) ^ 2) =
    ((sqDist ship.1 ship.2 p.x p.y : ℚ) : ℝ) by push_cast [sqDist]; ring]
  exact_mod_cast Iff.rfl

/-- Any two distinct entries of `GALAXY_POINTS` have squared distance at
least 500, in particular at least 256 = (8 + 8)². -/
lemma galaxy_points_separated (p q : MapPointData)
    (hp : p ∈ GALAXY_POINTS) (hq : q ∈ GALAXY_POINTS) (hne : p ≠ q) :
    256 ≤ (p.x - q.x) * (p.x - q.x) + (p.y - q.y) * (p.y - q.y) := by
  simp only [GALAXY_POINTS, List.mem_cons, List.not_mem_nil, or_false] at hp hq
  rcases hp with rfl | rfl | rfl | rfl | rfl | rfl | rfl <;>
    rcases hq with rfl | rfl | rfl | rfl | rfl | rfl | rfl <;>
    first
      | exact absurd rfl hne
      | norm_num [terraNovaPoint, estacaoOmegaPoint, nebulosaCrimsonPoint,
          mundoGeladoPoint, planetaLimitePoint, estacaoBordaPoint,
          campoAsteroidesPoint]

/-- At most one entry of `GALAXY_POINTS` can be within the proximity
threshold of any single ship position: the points are pairwise more than
twice the threshold apart. -/
lemma galaxy_near_unique (ship : ℚ × ℚ) (p q : MapPointData)
    (hp : p ∈ GALAXY_POINTS) (hq : q ∈ GALAXY_POINTS)
    (hnp : isNearPoint ship p = true) (hnq : isNearPoint ship q = true) :
    p = q := by
  by_contra hne
  have hsep := galaxy_points_separated p q hp hq hne
  have h1 : sqDist ship.1 ship.2 p.x p.y < 64 := by
    simpa [isNearPoint] using hnp
  have h2 : sqDist ship.1 ship.2 q.x q.y < 64 := by
    simpa [isNearPoint] using hnq
  rw [sqDist] at h1 h2
  nlinarith [sq_nonneg ((ship.1 - p.x) + (ship.1 - q.x)),
    sq_nonneg ((ship.2 - p.y) + (ship.2 - q.y)), h1, h2, hsep]

/-- Outcome of the sound playback promise. -/
inductive SoundOutcome where
  | resolved
  | rejected
  deriving Repr, DecidableEq

/-- Modelled from the spec: `playBarrierCollisionSound` is imported from
`src/utils/soundManager`, which is absent from the sources.  The spec says
only that its promise rejection is ignored, so the call is modelled as a
promise whose outcome (`resolved` or `rejected`) is an arbitrary parameter. -/
def playBarrierCollisionSound (outcome : SoundOutcome) : Except Unit Unit :=
  match outcome with
  | SoundOutcome.resolved => Except.ok ()
  | SoundOutcome.rejected => Except.error ()

/-- The `.catch (fn) -> \x7b\x7d` handler attached to the sound call: a rejection is
replaced by a unit resolution and nothing else is done with the result. -/
def catchIgnore (e : Except Unit Unit) : Except Unit Unit :=
  match e with
  | Except.error _ => Except.ok ()
  | Except.ok u => Except.ok u

/-- `checkCollisionWithBoundaries` with its side effect made explicit: the
returned position, whether the sound call was triggered, and the handled
outcome of that call. -/
structure CheckEffResult where
  pos : ℚ × ℚ
  soundPlayed : Bool
  soundResult : Except Unit Unit
  deriving Repr

/-- Effect-explicit version of `checkCollisionWithBoundaries`: when the
`collided` flag is set the handled sound call runs, otherwise it does not. -/
def checkCollisionWithBoundariesEff (outcome : SoundOutcome) (x y : ℚ) :
    CheckEffResult :=
  let c := checkCollisionWithBoundaries x y
  if c.collided then
    { pos := (c.x, c.y), soundPlayed := true,
      soundResult := catchIgnore (playBarrierCollisionSound outcome) }
  else
    { pos := (c.x, c.y), soundPlayed := false, soundResult := Except.ok () }

/-- The component state: `useState` hooks plus the static points list the
handlers read (`GALAXY_POINTS` is a module-level constant; carrying it in the
state lets the frame claims talk about it). -/
structure GalaxyMapState where
  shipPosition : ℚ × ℚ
  isDragging : Bool
  isDecelerating : Bool
  points : List MapPointData
  deriving Repr, DecidableEq

/-- The bounding client rect of the `constraintsRef` container. -/
structure Rect where
  left : ℚ
  top : ℚ
  width : ℚ
  height : ℚ
  deriving Repr, DecidableEq

/-- The slice of framer-motion's `PanInfo` the handlers can see: the absolute
pointer position (`info.point`) and the pan delta (`info.delta`). -/
structure PanInfo where
  pointX : ℚ
  pointY : ℚ
  deltaX : ℚ
  deltaY : ℚ
  deriving Repr, DecidableEq

/-- Initial state: the ship starts at `(50, 50)`, not dragging, not
decelerating, with the static `GALAXY_POINTS`. -/
def initState : GalaxyMapState :=
  { shipPosition := (50, 50), isDragging := false, isDecelerating := false,
    points := GALAXY_POINTS }

/-- `handleDragStart`: set `isDragging`, clear `isDecelerating`. -/
def handleDragStart (s : GalaxyMapState) : GalaxyMapState :=
  { s with isDragging := true, isDecelerating := false }

/-- `handleDrag`: if the constraints ref is present, map the absolute pointer
position into percent coordinates of the container, clamp, and store the
result as the new ship position. -/
def handleDrag (s : GalaxyMapState) (rect? : Option Rect) (info : PanInfo) :
    GalaxyMapState :=
  match rect? with
  | none => s
  | some rect =>
    let x := ((info.pointX - rect.left) / rect.width) * 100
    let y := ((info.pointY - rect.top) / rect.height) * 100
    let c := checkCollisionWithBoundaries x y
    { s with shipPosition := (c.x, c.y) }

/-- The `const nearbyPoint = GALAXY_POINTS.find((point) => isNearPoint(point))`
line shared by `handleDragEnd` and `handleTouchEnd`. -/
def nearbyPoint (s : GalaxyMapState) : Option MapPointData :=
  s.points.find? (fun point => isNearPoint s.shipPosition point)

/-- `handleDragEnd`: clear `isDragging`, set `isDecelerating`, and invoke
`onPointClick` with the id and data of the found nearby point, if any.  The
second component lists the `onPointClick` invocations. -/
def handleDragEnd (s : GalaxyMapState) :
    GalaxyMapState × List (String × MapPointData) :=
  let s' := { s with isDragging := false, isDecelerating := true }
  match nearbyPoint s with
  | some point => (s', [(point.id, point)])
  | none => (s', [])

/-- `handleTouchStart` delegates to `handleDragStart`. -/
def handleTouchStart (s : GalaxyMapState) : GalaxyMapState :=
  handleDragStart s

/-- `handleTouchMove`: same absolute mapping as `handleDrag`, but only while
`isDragging` is set and the constraints ref is present. -/
def handleTouchMove (s : GalaxyMapState) (rect? : Option Rect)
    (clientX clientY : ℚ) : GalaxyMapState :=
  if !s.isDragging then s
  else
    match rect? with
    | none => s
    | some rect =>
      let x := ((clientX - rect.left) / rect.width) * 100
      let y := ((clientY - rect.top) / rect.height) * 100
      let c := checkCollisionWithBoundaries x y
      { s with shipPosition := (c.x, c.y) }

/-- `handleTouchEnd`: same body as `handleDragEnd` (after `preventDefault`). -/
def handleTouchEnd (s : GalaxyMapState) :
    GalaxyMapState × List (String × MapPointData) :=
  let s' := { s with isDragging := false, isDecelerating := true }
  match nearbyPoint s with
  | some point => (s', [(point.id, point)])
  | none => (s', [])

/-- The `setTimeout` callback scheduled by both end handlers: after 500 ms it
clears `isDecelerating`. -/
def handleDecelerationTimeout (s : GalaxyMapState) : GalaxyMapState :=
  { s with isDecelerating := false }

/-- The `dragMomentum` prop of the ship's motion div: momentum is disabled. -/
def dragMomentum : Bool := false

/-- One user-visible event the component reacts to. -/
inductive GalaxyMapEvent where
  | dragStart
  | drag (rect? : Option Rect) (info : PanInfo)
  | dragEnd (info : PanInfo)
  | touchStart
  | touchMove (rect? : Option Rect) (clientX clientY : ℚ)
  | touchEnd
  | decelerationTimeout
  deriving Repr, DecidableEq

/-- One step of the component: the next state and the `onPointClick`
invocations the event caused. -/
def step (s : GalaxyMapState) (e : GalaxyMapEvent) :
    GalaxyMapState × List (String × MapPointData) :=
  match e with
  | GalaxyMapEvent.dragStart => (handleDragStart s, [])
  | GalaxyMapEvent.drag rect? info => (handleDrag s rect? info, [])
  | GalaxyMapEvent.dragEnd _ => handleDragEnd s
  | GalaxyMapEvent.touchStart => (handleTouchStart s, [])
  | GalaxyMapEvent.touchMove rect? cx cy => (handleTouchMove s rect? cx cy, [])
  | GalaxyMapEvent.touchEnd => handleTouchEnd s
  | GalaxyMapEvent.decelerationTimeout => (handleDecelerationTimeout s, [])

/-- Run the component from the initial state over a sequence of events. -/
def run (evs : List GalaxyMapEvent) : GalaxyMapState :=
  evs.foldl (fun s e => (step s e).1) initState

/-- `List.find?` returns the unique element satisfying the predicate. -/
lemma find?_eq_some_of_unique {α : Type} {l : List α} {pred : α → Bool} {p : α}
    (hp : p ∈ l) (hpred : pred p = true)
    (huniq : ∀ q ∈ l, pred q = true → q = p) :
    l.find? pred = some p := by
  induction l with
  | nil => cases hp
  | cons a t ih =>
    by_cases ha : pred a = true
    · have : a = p := huniq a (List.mem_cons_self a t) ha
      subst this
      exact List.find?_cons_of_pos t ha
    · rcases List.mem_cons.mp hp with h | h
      · exact absurd (h ▸ hpred) ha
      · rw [List.find?_cons_of_neg t ha]
        exact ih h (fun q hq hq' => huniq q (List.mem_cons_of_mem a hq) hq')

/-- When the ship is near an entry of `GALAXY_POINTS`, the nearby-point
search returns exactly that entry. -/
lemma nearbyPoint_eq_of_near (s : GalaxyMapState)
    (hpts : s.points = GALAXY_POINTS) (p : MapPointData)
    (hp : p ∈ GALAXY_POINTS) (hnear : isNearPoint s.shipPosition p = true) :
    nearbyPoint s = some p := by
  rw [nearbyPoint, hpts]
  exact find?_eq_some_of_unique hp hnear
    (fun q hq hq' => galaxy_near_unique s.shipPosition q p hq hp hq' hnear)

/-- When no entry of `GALAXY_POINTS` is near, the search fails. -/
lemma nearbyPoint_eq_none (s : GalaxyMapState)
    (hpts : s.points = GALAXY_POINTS)
    (hnone : ∀ p ∈ GALAXY_POINTS, isNearPoint s.shipPosition p = false) :
    nearbyPoint s = none := by
  rw [nearbyPoint, hpts]
  exact List.find?_eq_none.mpr (fun q hq => by simp [hnone q hq])

/-- C2: at drag end (mouse or touch), a nearby point of interest triggers
exactly one `onPointClick` invocation carrying its id and data, and the
absence of any nearby point triggers none. -/
theorem dragEnd_landing_callback (ship : ℚ × ℚ) :
    (∀ p, p ∈ GALAXY_POINTS → isNearPoint ship p = true →
      (handleDragEnd { initState with shipPosition := ship }).2 = [(p.id, p)] ∧
      (handleTouchEnd { initState with shipPosition := ship }).2 = [(p.id, p)]) ∧
    ((∀ p, p ∈ GALAXY_POINTS → isNearPoint ship p = false) →
      (handleDragEnd { initState with shipPosition := ship }).2 = [] ∧
      (handleTouchEnd { initState with shipPosition := ship }).2 = []) := by
  constructor
  · intro p hp hnear
    have hfind : nearbyPoint { initState with shipPosition := ship } = some p :=
      nearbyPoint_eq_of_near _ rfl p hp hnear
    constructor <;> simp [handleDragEnd, handleTouchEnd, hfind]
  · intro hnone
    have hfind : nearbyPoint { initState with shipPosition := ship } = none :=
      nearbyPoint_eq_none _ rfl hnone
    constructor <;> simp [handleDragEnd, handleTouchEnd, hfind]

/-- C2 witness: with the ship parked on Terra Nova at `(20, 30)`, ending a
drag fires `onPointClick("terra-nova", terraNovaPoint)`. -/
theorem dragEnd_landing_callback_witness :
    (handleDragEnd { initState with shipPosition := ((20 : ℚ), (30 : ℚ)) }).2 =
      [(terraNovaPoint.id, terraNovaPoint)] :=
  ((dragEnd_landing_callback (20, 30)).1 terraNovaPoint (by decide)
    (by norm_num [isNearPoint, sqDist, terraNovaPoint])).1

/-- C3: uniqueness plus minimality of the selected point.  For the static
`GALAXY_POINTS` no ship position has two simultaneously-near points (first
conjunct), and whenever the ship is near a point, the drag-end search selects
exactly that point, which therefore has minimum distance among all points
within the threshold (second conjunct). -/
theorem dragEnd_selects_nearest (ship : ℚ × ℚ) :
    (∀ p q : MapPointData, p ∈ GALAXY_POINTS → q ∈ GALAXY_POINTS →
      isNearPoint ship p = true → isNearPoint ship q = true → p = q) ∧
    (∀ p : MapPointData, p ∈ GALAXY_POINTS → isNearPoint ship p = true →
      nearbyPoint { initState with shipPosition := ship } = some p ∧
      ∀ q ∈ GALAXY_POINTS, isNearPoint ship q = true →
        sqDist ship.1 ship.2 p.x p.y ≤ sqDist ship.1 ship.2 q.x q.y) := by
  constructor
  · exact fun p q hp hq hnp hnq => galaxy_near_unique ship p q hp hq hnp hnq
  · intro p hp hnear
    refine ⟨nearbyPoint_eq_of_near _ rfl p hp hnear, ?_⟩
    intro q hq hnq
    have : q = p := galaxy_near_unique ship q p hq hp hnq hnear
    rw [this]

/-- C3 witness: at ship position `(20, 30)` the selected point is Terra Nova
and it minimises the distance among near points. -/
theorem dragEnd_selects_nearest_witness :
    nearbyPoint { initState with shipPosition := ((20 : ℚ), (30 : ℚ)) } =
      some terraNovaPoint :=
  ((dragEnd_selects_nearest (20, 30)).2 terraNovaPoint (by decide)
    (by norm_num [isNearPoint, sqDist, terraNovaPoint])).1

/-- The ship position stays inside the clamping margins. -/
def inBounds (p : ℚ × ℚ) : Prop :=
  5 ≤ p.1 ∧ p.1 ≤ 95 ∧ 5 ≤ p.2 ∧ p.2 ≤ 95

instance (p : ℚ × ℚ) : Decidable (inBounds p) := by
  unfold inBounds
  infer_instance

lemma check_pos_inBounds (x y : ℚ) :
    inBounds ((checkCollisionWithBoundaries x y).x, (checkCollisionWithBoundaries x y).y) := by
  obtain ⟨h1, h2, h3, h4⟩ := check_pos_bounds x y
  exact ⟨h1, h2, h3, h4⟩

lemma handleDragEnd_fst (s : GalaxyMapState) :
    (handleDragEnd s).1 = { s with isDragging := false, isDecelerating := true } := by
  rw [handleDragEnd]
  cases nearbyPoint s <;> rfl

lemma handleTouchEnd_fst (s : GalaxyMapState) :
    (handleTouchEnd s).1 = { s with isDragging := false, isDecelerating := true } := by
  rw [handleTouchEnd]
  cases nearbyPoint s <;> rfl

lemma step_preserves_inBounds (s : GalaxyMapState) (e : GalaxyMapEvent)
    (h : inBounds s.shipPosition) : inBounds ((step s e).1).shipPosition := by
  cases e with
  | dragStart => exact h
  | drag rect? info =>
    cases rect? with
    | none => exact h
    | some rect => exact check_pos_inBounds _ _
  | dragEnd info =>
    show inBounds ((handleDragEnd s).1).shipPosition
    rw [handleDragEnd_fst]
    exact h
  | touchStart => exact h
  | touchMove rect? cx cy =>
    show inBounds ((handleTouchMove s rect? cx cy)).shipPosition
    rw [handleTouchMove.eq_def]
    split
    · exact h
    · cases rect? with
      | none => exact h
      | some rect => exact check_pos_inBounds _ _
  | touchEnd =>
    show inBounds ((handleTouchEnd s).1).shipPosition
    rw [handleTouchEnd_fst]
    exact h
  | decelerationTimeout => exact h

lemma foldl_preserves_inBounds (evs : List GalaxyMapEvent) :
    ∀ s : GalaxyMapState, inBounds s.shipPosition →
      inBounds (evs.foldl (fun s e => (step s e).1) s).shipPosition := by
  induction evs with
  | nil => exact fun s h => h
  | cons e t ih =>
    intro s h
    exact ih _ (step_preserves_inBounds s e h)

/-- C4: the ship starts at `(50, 50)` and, since every position update passes
through `checkCollisionWithBoundaries`, after any sequence of pointer events
the ship position lies in `[5, 95] × [5, 95]`. -/
theorem shipPosition_invariant (evs : List GalaxyMapEvent) :
    initState.shipPosition = (50, 50) ∧ inBounds (run evs).shipPosition :=
  ⟨rfl, foldl_preserves_inBounds evs initState (by norm_num [initState, inBounds])⟩

lemma step_preserves_points (s : GalaxyMapState) (e : GalaxyMapEvent) :
    ((step s e).1).points = s.points := by
  cases e with
  | dragStart => rfl
  | drag rect? info => cases rect? <;> rfl
  | dragEnd info =>
    show ((handleDragEnd s).1).points = s.points
    rw [handleDragEnd_fst]
  | touchStart => rfl
  | touchMove rect? cx cy =>
    show (handleTouchMove s rect? cx cy).points = s.points
    rw [handleTouchMove.eq_def]
    split
    · rfl
    · cases rect? <;> rfl
  | touchEnd =>
    show ((handleTouchEnd s).1).points = s.points
    rw [handleTouchEnd_fst]
  | decelerationTimeout => rfl

lemma foldl_preserves_points (evs : List GalaxyMapEvent) :
    ∀ s : GalaxyMapState,
      (evs.foldl (fun s e => (step s e).1) s).points = s.points := by
  induction evs with
  | nil => exact fun s => rfl
  | cons e t ih =>
    intro s
    rw [List.foldl_cons, ih, step_preserves_points]

/-- C9: the points of interest are static data — no event of the component
changes the list: after any event sequence it is still exactly
`GALAXY_POINTS` (same length, same ids, coordinates, names, types,
descriptions and images), and no single step touches it. -/
theorem galaxyPoints_static (evs : List GalaxyMapEvent) :
    (run evs).points = GALAXY_POINTS ∧
    (∀ (s : GalaxyMapState) (e : GalaxyMapEvent), ((step s e).1).points = s.points) :=
  ⟨by rw [run, foldl_preserves_points]; rfl, fun s e => step_preserves_points s e⟩

/-- C10: ending a drag (mouse or touch) only toggles the `isDragging` and
`isDecelerating` flags: the ship position and the points are untouched, so
the position immediately after release equals the position at release;
framer-motion momentum is disabled (`dragMomentum` is `false`) and the
scheduled 500 ms timeout only clears `isDecelerating`. -/
theorem dragEnd_position_preserving (s : GalaxyMapState) :
    (handleDragEnd s).1.shipPosition = s.shipPosition ∧
    (handleTouchEnd s).1.shipPosition = s.shipPosition ∧
    (handleDragEnd s).1.isDragging = false ∧
    (handleDragEnd s).1.isDecelerating = true ∧
    (handleTouchEnd s).1.isDragging = false ∧
    (handleTouchEnd s).1.isDecelerating = true ∧
    (handleDragEnd s).1.points = s.points ∧
    (handleTouchEnd s).1.points = s.points ∧
    (handleDecelerationTimeout s).shipPosition = s.shipPosition ∧
    (handleDecelerationTimeout s).isDragging = s.isDragging ∧
    (handleDecelerationTimeout s).isDecelerating = false ∧
    (handleDecelerationTimeout s).points = s.points ∧
    dragMomentum = false := by
  rw [handleDragEnd_fst, handleTouchEnd_fst]
  exact ⟨rfl, rfl, rfl, rfl, rfl, rfl, rfl, rfl, rfl, rfl, rfl, rfl, rfl⟩

lemma checkEff_pos (o : SoundOutcome) (x y : ℚ) :
    (checkCollisionWithBoundariesEff o x y).pos =
      ((checkCollisionWithBoundaries x y).x, (checkCollisionWithBoundaries x y).y) := by
  simp only [checkCollisionWithBoundariesEff]
  split <;> rfl

lemma checkEff_soundResult (o : SoundOutcome) (x y : ℚ) :
    (checkCollisionWithBoundariesEff o x y).soundResult = Except.ok () := by
  simp only [checkCollisionWithBoundariesEff]
  split
  · cases o <;> rfl
  · rfl

lemma checkEff_soundPlayed (o : SoundOutcome) (x y : ℚ) :
    (checkCollisionWithBoundariesEff o x y).soundPlayed =
      (checkCollisionWithBoundaries x y).collided := by
  simp only [checkCollisionWithBoundariesEff]
  split
  · next h => exact h.symm
  · next h => simp only [Bool.not_eq_true] at h; exact h.symm

/-- C6: the sound call of `checkCollisionWithBoundaries` is triggered exactly
when the input is out of bounds on some axis, equivalently exactly when the
returned clamped position differs from the input. -/
theorem collisionSound_trigger_iff (o : SoundOutcome) (x y : ℚ) :
    ((checkCollisionWithBoundariesEff o x y).soundPlayed = true ↔
      (x < 5 ∨ x > 95 ∨ y < 5 ∨ y > 95)) ∧
    ((checkCollisionWithBoundariesEff o x y).soundPlayed = true ↔
      ((checkCollisionWithBoundaries x y).x, (checkCollisionWithBoundaries x y).y) ≠ (x, y)) := by
  rw [checkEff_soundPlayed]
  exact ⟨check_collided_iff x y, check_collided_iff_ne x y⟩

/-- C7: a rejected sound promise is caught and discarded — the handled sound
result is always a unit resolution, and the clamped position is the same
whatever the playback outcome. -/
theorem soundRejection_ignored (o1 o2 : SoundOutcome) (x y : ℚ) :
    (checkCollisionWithBoundariesEff o1 x y).pos =
      (checkCollisionWithBoundariesEff o2 x y).pos ∧
    (checkCollisionWithBoundariesEff o1 x y).pos =
      ((checkCollisionWithBoundaries x y).x, (checkCollisionWithBoundaries x y).y) ∧
    (checkCollisionWithBoundariesEff o1 x y).soundResult = Except.ok () ∧
    catchIgnore (playBarrierCollisionSound SoundOutcome.rejected) = Except.ok () :=
  ⟨by rw [checkEff_pos, checkEff_pos], checkEff_pos o1 x y,
    checkEff_soundResult o1 x y, rfl⟩

lemma clampAxis_bounds (v : ℚ) : 5 ≤ clampAxis v ∧ clampAxis v ≤ 95 := by
  rw [clampAxis_eq]
  exact ⟨le_min (le_max_right v 5) (by norm_num), min_le_right _ _⟩

lemma clampAxis_of_inBounds {v : ℚ} (h5 : 5 ≤ v) (h95 : v ≤ 95) :
    clampAxis v = v := by
  rw [clampAxis_eq, max_eq_left h5, min_eq_left h95]

lemma axisCollided_false_of_inBounds {v : ℚ} (h5 : 5 ≤ v) (h95 : v ≤ 95) :
    axisCollided v = false := by
  rw [← Bool.not_eq_true, axisCollided_iff]
  push_neg
  exact ⟨h5, h95⟩

/-- C8: `checkCollisionWithBoundaries` is idempotent on positions, and on an
input already inside `[5, 95] × [5, 95]` it returns the input unchanged with
the `collided` flag (hence the sound trigger) off. -/
theorem checkCollision_idempotent (x y : ℚ) :
    (checkCollisionWithBoundaries (checkCollisionWithBoundaries x y).x
        (checkCollisionWithBoundaries x y).y).x = (checkCollisionWithBoundaries x y).x ∧
    (checkCollisionWithBoundaries (checkCollisionWithBoundaries x y).x
        (checkCollisionWithBoundaries x y).y).y = (checkCollisionWithBoundaries x y).y ∧
    (5 ≤ x → x ≤ 95 → 5 ≤ y → y ≤ 95 →
      checkCollisionWithBoundaries x y = ⟨x, y, false⟩) := by
  refine ⟨?_, ?_, ?_⟩
  · show clampAxis (clampAxis x) = clampAxis x
    exact clampAxis_of_inBounds (clampAxis_bounds x).1 (clampAxis_bounds x).2
  · show clampAxis (clampAxis y) = clampAxis y
    exact clampAxis_of_inBounds (clampAxis_bounds y).1 (clampAxis_bounds y).2
  · intro h5x h95x h5y h95y
    simp only [checkCollisionWithBoundaries, CollisionResult.mk.injEq]
    refine ⟨clampAxis_of_inBounds h5x h95x, clampAxis_of_inBounds h5y h95y, ?_⟩
    rw [axisCollided_false_of_inBounds h5x h95x,
      axisCollided_false_of_inBounds h5y h95y]
    rfl

/-- C8 witness: the interior point `(50, 50)` is returned unchanged with no
collision. -/
theorem checkCollision_idempotent_witness :
    checkCollisionWithBoundaries 50 50 = ⟨50, 50, false⟩ :=
  (checkCollision_idempotent 50 50).2.2 (by norm_num) (by norm_num)
    (by norm_num) (by norm_num)

/-- The spec's reading of the drag update ("drag/pan delta integration",
"accumulates deltas"): the new position would be the previous ship position
plus the pan delta, clamped.  Stated only to compare with the source's
`handleDrag`, which maps the absolute pointer position instead. -/
def handleDragSpecDelta (s : GalaxyMapState) (info : PanInfo) : GalaxyMapState :=
  let c := checkCollisionWithBoundaries (s.shipPosition.1 + info.deltaX)
    (s.shipPosition.2 + info.deltaY)
  { s with shipPosition := (c.x, c.y) }

/-- C5 counterexample: with the container rect `(0, 0, 100, 100)`, pointer at
`(10, 10)` and pan delta `(1, 1)` starting from the initial ship position
`(50, 50)`, the source's `handleDrag` moves the ship to `(10, 10)` (the
absolute pointer position in percent), while delta integration would give
`(51, 51)`.  The drag update is not delta integration. -/
theorem handleDrag_not_delta_integration :
    (handleDrag initState (some { left := 0, top := 0, width := 100, height := 100 })
        { pointX := 10, pointY := 10, deltaX := 1, deltaY := 1 }).shipPosition =
      ((10 : ℚ), (10 : ℚ)) ∧
    (handleDragSpecDelta initState
        { pointX := 10, pointY := 10, deltaX := 1, deltaY := 1 }).shipPosition =
      ((51 : ℚ), (51 : ℚ)) ∧
    (handleDrag initState (some { left := 0, top := 0, width := 100, height := 100 })
        { pointX := 10, pointY := 10, deltaX := 1, deltaY := 1 }).shipPosition ≠
      (handleDragSpecDelta initState
        { pointX := 10, pointY := 10, deltaX := 1, deltaY := 1 }).shipPosition := by
  have h1 : (handleDrag initState
      (some { left := 0, top := 0, width := 100, height := 100 })
      { pointX := 10, pointY := 10, deltaX := 1, deltaY := 1 }).shipPosition =
      ((10 : ℚ), (10 : ℚ)) := by
    show ((checkCollisionWithBoundaries (((10 - 0) / 100) * 100) (((10 - 0) / 100) * 100)).x,
      (checkCollisionWithBoundaries (((10 - 0) / 100) * 100) (((10 - 0) / 100) * 100)).y) = _
    rw [check_x_eq, check_y_eq]
    norm_num
  have h2 : (handleDragSpecDelta initState
      { pointX := 10, pointY := 10, deltaX := 1, deltaY := 1 }).shipPosition =
      ((51 : ℚ), (51 : ℚ)) := by
    show ((checkCollisionWithBoundaries (50 + 1) (50 + 1)).x,
      (checkCollisionWithBoundaries (50 + 1) (50 + 1)).y) = _
    rw [check_x_eq, check_y_eq]
    norm_num
  refine ⟨h1, h2, ?_⟩
  rw [h1, h2]
  intro h
  exact absurd (congrArg Prod.fst h) (by norm_num)

/-- C5 amended: during a drag (mouse, and touch while dragging), the new ship
position is the absolute pointer position mapped into container-percentage
coordinates and clamped; it does not depend on the previous ship position or
on the pan delta. -/
theorem handleDrag_absolute_mapping (s : GalaxyMapState) (r : Rect) (i : PanInfo)
    (cx cy : ℚ) :
    (handleDrag s (some r) i).shipPosition =
      (min (max (((i.pointX - r.left) / r.width) * 100) 5) 95,
       min (max (((i.pointY - r.top) / r.height) * 100) 5) 95) ∧
    (∀ s' : GalaxyMapState,
      (handleDrag s (some r) i).shipPosition = (handleDrag s' (some r) i).shipPosition) ∧
    (handleTouchMove { s with isDragging := true } (some r) cx cy).shipPosition =
      (min (max (((cx - r.left) / r.width) * 100) 5) 95,
       min (max (((cy - r.top) / r.height) * 100) 5) 95) := by
  refine ⟨?_, fun s' => rfl, ?_⟩
  · show ((checkCollisionWithBoundaries (((i.pointX - r.left) / r.width) * 100)
        (((i.pointY - r.top) / r.height) * 100)).x,
      (checkCollisionWithBoundaries (((i.pointX - r.left) / r.width) * 100)
        (((i.pointY - r.top) / r.height) * 100)).y) = _
    rw [check_x_eq, check_y_eq]
  · show ((checkCollisionWithBoundaries (((cx - r.left) / r.width) * 100)
        (((cy - r.top) / r.height) * 100)).x,
      (checkCollisionWithBoundaries (((cx - r.left) / r.width) * 100)
        (((cy - r.top) / r.height) * 100)).y) = _
    rw [check_x_eq, check_y_eq]
